import Mathlib

/-!
Shallow embedding of the portmon daemon core (github.com/wellsgz/portmon):
the eBPF sampling collector, the delta aggregator, the store upsert
semantics, the billing-cycle date arithmetic, the configuration port
parsing, and the IPC request dispatch. Every definition is translated
from the Go sources; uint64 arithmetic is modeled on Nat with explicit
reduction modulo 2 ^ 64 where the Go code can wrap, and float64 rates
are modeled as rationals.
-/

namespace Portmon

/-- Association-list lookup, the model of a Go map read and of a SQL row
lookup on a unique key: the first binding for the key, if any. -/
def alookup {α β : Type} [DecidableEq α] : List (α × β) → α → Option β
  | [], _ => none
  | (k, v) :: rest, key => if k = key then some v else alookup rest key

/-- Association-list store, the model of a Go map assignment and of a SQL
UPDATE of the unique conflicting row: replace the first binding of the
key, appending a fresh binding when the key is absent. -/
def setAssoc {α β : Type} [DecidableEq α] : List (α × β) → α → β → List (α × β)
  | [], key, v => [(key, v)]
  | (k, w) :: rest, key, v =>
      if k = key then (key, v) :: rest else (k, w) :: setAssoc rest key v

/-- Go uint64 subtraction: the difference modulo 2 ^ 64, which wraps
around on underflow. -/
def u64sub (a b : Nat) : Nat := (a % 2 ^ 64 + 2 ^ 64 - b % 2 ^ 64) % 2 ^ 64

/-- A kernel PortTotals row (generated struct probePmPortStats): five
cumulative uint64 counters. -/
structure PmPortStats where
  rxBytes : Nat
  txBytes : Nat
  rxPackets : Nat
  txPackets : Nat
  connections : Nat
  deriving DecidableEq

/-- The userspace per-port snapshot entry (types.PortStats): the counters
published by the collector plus the derived byte/sec rates. -/
structure PortStats where
  port : Nat
  rxBytes : Nat
  txBytes : Nat
  rxPackets : Nat
  txPackets : Nat
  connections : Nat
  rxRate : Rat
  txRate : Rat
  deriving DecidableEq

/-- A ConnTotals key (generated struct probePmConnKey): the IPv4 4-tuple
identifying a tracked connection. -/
structure ConnKey where
  saddr : Nat
  daddr : Nat
  sport : Nat
  dport : Nat
  deriving DecidableEq

/-- One counting step of Loader.CountActiveConnections: counts[k] is
incremented, reading an absent key as 0 as a Go map does. -/
def bumpCount (counts : List (Nat × Nat)) (p : Nat) : List (Nat × Nat) :=
  setAssoc counts p ((alookup counts p).getD 0 + 1)

/-- Loader.CountActiveConnections: iterate ConnTotals and, for each
entry, increment the count of the source port if it is monitored and of
the destination port if it is monitored. -/
def CountActiveConnections (targets : List Nat) (conns : List ConnKey) :
    List (Nat × Nat) :=
  conns.foldl
    (fun counts k =>
      let counts1 := if k.sport ∈ targets then bumpCount counts k.sport else counts
      if k.dport ∈ targets then bumpCount counts1 k.dport else counts1)
    []

/-- Collector.collect, body for one sampled port: publish the sampled
byte and packet counters, the active-connection count in the connections
field, and rates derived only when wall time advanced and a previous
sample exists for this port. The byte deltas use Go uint64 subtraction,
which wraps around when the current counter is below the previous one. -/
def collectPort (port : Nat) (elapsed : Rat) (prev : Option PmPortStats)
    (current : PmPortStats) (activeConn : Nat) : PortStats :=
  let rates : Rat × Rat :=
    if 0 < elapsed then
      match prev with
      | some p =>
          (((u64sub current.rxBytes p.rxBytes : Nat) : Rat) / elapsed,
           ((u64sub current.txBytes p.txBytes : Nat) : Rat) / elapsed)
      | none => (0, 0)
    else (0, 0)
  { port := port, rxBytes := current.rxBytes, txBytes := current.txBytes,
    rxPackets := current.rxPackets, txPackets := current.txPackets,
    connections := activeConn, rxRate := rates.1, txRate := rates.2 }

/-- Collector.collect over the whole PortTotals sample: one published
entry per sampled port, with lastStats the shadow of the previous raw
sample and activeConns the map built by CountActiveConnections. -/
def collect (lastStats : List (Nat × PmPortStats)) (elapsed : Rat)
    (stats : List (Nat × PmPortStats)) (activeConns : List (Nat × Nat)) :
    List (Nat × PortStats) :=
  stats.map fun pc =>
    (pc.1, collectPort pc.1 elapsed (alookup lastStats pc.1) pc.2
      ((alookup activeConns pc.1).getD 0))

/-- The aggregator shadow of the last persisted counters for one port
(daemon.persistedStats). -/
structure persistedStats where
  rxBytes : Nat
  txBytes : Nat
  rxPackets : Nat
  txPackets : Nat
  connections : Nat
  deriving DecidableEq

/-- The aggregator per-port per-day peak-rate tracker
(daemon.peakRateTracker). -/
structure peakRateTracker where
  date : String
  peakRxRate : Nat
  peakTxRate : Nat
  deriving DecidableEq

/-- The five per-tick deltas computed by Aggregator.persist for one
port. -/
structure Deltas where
  deltaRx : Nat
  deltaTx : Nat
  deltaRxPkt : Nat
  deltaTxPkt : Nat
  deltaConn : Nat
  deriving DecidableEq

/-- Aggregator.persist, delta computation for one port: with a shadow,
each delta variable starts at 0 and is assigned current minus shadow
only under a current-at-least-shadow guard; with no shadow, the whole
current counter is the delta. -/
def computeDeltas (last : Option persistedStats) (stats : PortStats) : Deltas :=
  match last with
  | some l =>
      { deltaRx := if l.rxBytes ≤ stats.rxBytes then stats.rxBytes - l.rxBytes else 0,
        deltaTx := if l.txBytes ≤ stats.txBytes then stats.txBytes - l.txBytes else 0,
        deltaRxPkt := if l.rxPackets ≤ stats.rxPackets then stats.rxPackets - l.rxPackets else 0,
        deltaTxPkt := if l.txPackets ≤ stats.txPackets then stats.txPackets - l.txPackets else 0,
        deltaConn := if l.connections ≤ stats.connections then stats.connections - l.connections else 0 }
  | none =>
      { deltaRx := stats.rxBytes, deltaTx := stats.txBytes,
        deltaRxPkt := stats.rxPackets, deltaTxPkt := stats.txPackets,
        deltaConn := stats.connections }

/-- An hourly_stats row for a (port, hour-timestamp) key. -/
structure HourlyRow where
  rxBytes : Nat
  txBytes : Nat
  rxPackets : Nat
  txPackets : Nat
  connections : Nat
  deriving DecidableEq

/-- A daily_stats row for a (port, date) key. -/
structure DailyRow where
  rxBytes : Nat
  txBytes : Nat
  rxPackets : Nat
  txPackets : Nat
  connections : Nat
  peakRxRate : Nat
  peakTxRate : Nat
  deriving DecidableEq

/-- DB.UpsertHourlyStats: INSERT with ON CONFLICT(port, timestamp) DO
UPDATE adding each counter to the existing row. The timestamp argument
is already truncated to the hour by the caller. -/
def UpsertHourlyStats (tbl : List ((Nat × Nat) × HourlyRow)) (port hourTs : Nat)
    (rx tx rxp txp conn : Nat) : List ((Nat × Nat) × HourlyRow) :=
  match alookup tbl (port, hourTs) with
  | some r =>
      setAssoc tbl (port, hourTs)
        { rxBytes := r.rxBytes + rx, txBytes := r.txBytes + tx,
          rxPackets := r.rxPackets + rxp, txPackets := r.txPackets + txp,
          connections := r.connections + conn }
  | none => tbl ++ [((port, hourTs), ⟨rx, tx, rxp, txp, conn⟩)]

/-- DB.UpsertDailyStats: INSERT with ON CONFLICT(port, date) DO UPDATE
adding the five counters and MAX-combining the two peak-rate columns. -/
def UpsertDailyStats (tbl : List ((Nat × String) × DailyRow)) (port : Nat)
    (date : String) (rx tx rxp txp conn peakRx peakTx : Nat) :
    List ((Nat × String) × DailyRow) :=
  match alookup tbl (port, date) with
  | some r =>
      setAssoc tbl (port, date)
        { rxBytes := r.rxBytes + rx, txBytes := r.txBytes + tx,
          rxPackets := r.rxPackets + rxp, txPackets := r.txPackets + txp,
          connections := r.connections + conn,
          peakRxRate := max r.peakRxRate peakRx,
          peakTxRate := max r.peakTxRate peakTx }
  | none => tbl ++ [((port, date), ⟨rx, tx, rxp, txp, conn, peakRx, peakTx⟩)]

/-- The Go conversion uint64(f) applied to the collector rates, which
are nonnegative float64 values: truncation toward zero, i.e. the floor
of a nonnegative rational. -/
def ratToU64 (q : Rat) : Nat := q.floor.toNat

/-- The aggregator state: the shadow of the last persisted counters and
the per-port peak-rate trackers. -/
structure AggState where
  lastPersist : List (Nat × persistedStats)
  peakRates : List (Nat × peakRateTracker)
  deriving DecidableEq

/-- The durable store state: the hourly_stats and daily_stats tables. -/
structure DBState where
  hourly : List ((Nat × Nat) × HourlyRow)
  daily : List ((Nat × String) × DailyRow)
  deriving DecidableEq

/-- Aggregator.persist, loop body for one port of the snapshot: compute
the deltas against the shadow; when both byte deltas are 0, skip the
port entirely; otherwise upsert the hourly bucket, reset the peak
tracker on date rollover and raise it with the floored snapshot rates,
upsert the daily bucket with the tracked peaks, and advance the shadow
to the current counters. -/
def persistPort (st : AggState) (db : DBState) (today : String) (hourTs : Nat)
    (port : Nat) (stats : PortStats) : AggState × DBState :=
  let d := computeDeltas (alookup st.lastPersist port) stats
  if d.deltaRx = 0 ∧ d.deltaTx = 0 then (st, db)
  else
    let hourly := UpsertHourlyStats db.hourly port hourTs
      d.deltaRx d.deltaTx d.deltaRxPkt d.deltaTxPkt d.deltaConn
    let peak0 : peakRateTracker :=
      match alookup st.peakRates port with
      | some pk =>
          if pk.date = today then pk
          else { date := today, peakRxRate := 0, peakTxRate := 0 }
      | none => { date := today, peakRxRate := 0, peakTxRate := 0 }
    let rxRate := ratToU64 stats.rxRate
    let txRate := ratToU64 stats.txRate
    let peak : peakRateTracker :=
      { date := peak0.date,
        peakRxRate := if peak0.peakRxRate < rxRate then rxRate else peak0.peakRxRate,
        peakTxRate := if peak0.peakTxRate < txRate then txRate else peak0.peakTxRate }
    let daily := UpsertDailyStats db.daily port today
      d.deltaRx d.deltaTx d.deltaRxPkt d.deltaTxPkt d.deltaConn
      peak.peakRxRate peak.peakTxRate
    (⟨setAssoc st.lastPersist port
        ⟨stats.rxBytes, stats.txBytes, stats.rxPackets, stats.txPackets, stats.connections⟩,
      setAssoc st.peakRates port peak⟩,
     ⟨hourly, daily⟩)

/-- Aggregator.persist: fold the per-port body over the snapshot. -/
def persist (st : AggState) (db : DBState) (today : String) (hourTs : Nat)
    (allStats : List (Nat × PortStats)) : AggState × DBState :=
  allStats.foldl (fun acc ps => persistPort acc.1 acc.2 today hourTs ps.1 ps.2) (st, db)

/-- The method-name constants of api/protocol.go. -/
def MethodGetRealtimeStats : String := "get_realtime_stats"

/-- api.MethodGetHistoricalStats. -/
def MethodGetHistoricalStats : String := "get_historical_stats"

/-- api.MethodGetActiveConnections. -/
def MethodGetActiveConnections : String := "get_active_connections"

/-- api.MethodGetStatus. -/
def MethodGetStatus : String := "get_status"

/-- api.MethodAddPort. -/
def MethodAddPort : String := "add_port"

/-- api.MethodRemovePort. -/
def MethodRemovePort : String := "remove_port"

/-- api.MethodListPorts. -/
def MethodListPorts : String := "list_ports"

/-- api.MethodFlushStats. -/
def MethodFlushStats : String := "flush_stats"

/-- api.ErrCodeMethodNotFound, the error code of the default branch of
the request dispatch. -/
def ErrCodeMethodNotFound : Int := -32601

/-- Which branch of the Server.handleRequest method switch a request
reaches; the default branch is an error reply carrying a code. -/
inductive Dispatch where
  | realtimeStats
  | historicalStats
  | status
  | addPort
  | removePort
  | listPorts
  | errorReply (code : Int)
  deriving DecidableEq

/-- Server.handleRequest, the method switch with its cases in source
order; the default branch replies with the method-not-found error. -/
def handleRequest (method : String) : Dispatch :=
  if method = MethodGetRealtimeStats then .realtimeStats
  else if method = MethodGetHistoricalStats then .historicalStats
  else if method = MethodGetStatus then .status
  else if method = MethodAddPort then .addPort
  else if method = MethodRemovePort then .removePort
  else if method = MethodListPorts then .listPorts
  else .errorReply ErrCodeMethodNotFound

/-- The live server state touched by the port-management handlers: the
kernel TargetPortSet (the target_ports map, a set of enabled ports) and
the monitored-ports list of the live Config. -/
structure ServerState where
  targets : List Nat
  ports : List Nat
  deriving DecidableEq

/-- A reply summary: a success result or an error reply with a code. -/
inductive Reply where
  | success
  | error (code : Int)
  deriving DecidableEq

/-- Loader.AddPort: a map Put of the enabled flag, i.e. an idempotent
set insert into the target_ports map. -/
def LoaderAddPort (targets : List Nat) (port : Nat) : List Nat :=
  if port ∈ targets then targets else targets ++ [port]

/-- Loader.RemovePort: a map Delete from the target_ports map, where the
key-not-exist error is swallowed (an absent port is success). -/
def LoaderRemovePort (targets : List Nat) (port : Nat) : List Nat :=
  targets.filter (fun p => p ≠ port)

/-- Server.handleAddPort after parameter decoding: insert into the
kernel map, then unconditionally append to the config ports list and
reply success. -/
def handleAddPort (s : ServerState) (port : Nat) : ServerState × Reply :=
  ({ targets := LoaderAddPort s.targets port, ports := s.ports ++ [port] }, .success)

/-- Server.handleRemovePort after parameter decoding: delete from the
kernel map (an absent key is not an error), then rebuild the config
ports list without the port and reply success. -/
def handleRemovePort (s : ServerState) (port : Nat) : ServerState × Reply :=
  ({ targets := LoaderRemovePort s.targets port,
     ports := s.ports.filter (fun p => p ≠ port) }, .success)

/-- Server.handleListPorts: reply with the config ports list. -/
def handleListPorts (s : ServerState) : List Nat := s.ports

/-- A wall-clock civil date-time, the components of a Go time.Time in a
fixed location as produced by Date and the clock accessors. -/
structure DateTime where
  year : Int
  month : Int
  day : Int
  hour : Int
  minute : Int
  second : Int
  deriving DecidableEq

/-- The Go time month normalization: carry month minus one into years,
leaving a month in 1..12. -/
def normMonth (y m : Int) : Int × Int :=
  (y + (m - 1).fdiv 12, (m - 1).emod 12 + 1)

/-- Days since 1970-01-01 of a civil date whose month is in 1..12; the
day contributes as a pure offset, exactly as in Go time.Date, so day
values outside the month range are meaningful. -/
def daysFromCivil (y m d : Int) : Int :=
  let yy := y - (if m ≤ 2 then 1 else 0)
  let era := yy.fdiv 400
  let yoe := yy - era * 400
  let doy := (153 * ((m + 9).emod 12) + 2).fdiv 5 + d - 1
  let doe := yoe * 365 + yoe.fdiv 4 - yoe.fdiv 100 + doy
  era * 146097 + doe - 719468

/-- The civil date of a count of days since 1970-01-01. -/
def civilFromDays (z0 : Int) : Int × Int × Int :=
  let z := z0 + 719468
  let era := z.fdiv 146097
  let doe := z - era * 146097
  let yoe := (doe - doe.fdiv 1460 + doe.fdiv 36524 - doe.fdiv 146096).fdiv 365
  let doy := doe - (365 * yoe + yoe.fdiv 4 - yoe.fdiv 100)
  let mp := (5 * doy + 2).fdiv 153
  let d := doy - (153 * mp + 2).fdiv 5 + 1
  let m := mp + (if mp < 10 then 3 else -9)
  (yoe + era * 400 + (if m ≤ 2 then 1 else 0), m, d)

/-- Go time.Date for arguments whose clock fields are already in range,
which holds at every call site modeled here: normalize the month with a
year carry, then resolve the possibly out-of-range day through the
absolute day count. -/
def goDate (y m d hh mi ss : Int) : DateTime :=
  let ym := normMonth y m
  let c := civilFromDays (daysFromCivil ym.1 ym.2 d)
  ⟨c.1, c.2.1, c.2.2, hh, mi, ss⟩

/-- The part of storage.GetBillingCycleDates after the clamp, applied to
the (possibly reassigned) cycle day: anchor the cycle start at this
month or the previous month according to the reference day of month,
ending at 23:59:59 of the day before the cycle day one month after the
start. -/
def billingCycleFrom (c : Int) (reference : DateTime) : DateTime × DateTime :=
  if c ≤ reference.day then
    (goDate reference.year reference.month c 0 0 0,
     goDate reference.year (reference.month + 1) (c - 1) 23 59 59)
  else
    (goDate reference.year (reference.month - 1) c 0 0 0,
     goDate reference.year reference.month (c - 1) 23 59 59)

/-- storage.GetBillingCycleDates: a cycle day outside 1..28 is silently
reassigned to 1 before the branch on the reference day. -/
def GetBillingCycleDates (cycleDay : Int) (reference : DateTime) :
    DateTime × DateTime :=
  billingCycleFrom (if cycleDay < 1 ∨ cycleDay > 28 then 1 else cycleDay) reference

/-- The decoded YAML value shapes that yaml.v3 produces inside an
untyped interface value and that config.parsePorts distinguishes. -/
inductive YamlValue where
  | yint (n : Int)
  | yfloat (q : Rat)
  | ystr (s : String)
  | ybool (b : Bool)
  | ylist (items : List YamlValue)
  | ymap (fields : List (String × YamlValue))

/-- config.PortConfig: a port number with an optional description. -/
structure PortConfig where
  port : Int
  description : String
  deriving DecidableEq

/-- The Go conversion int(f) on float64: truncation toward zero. -/
def floatToInt (q : Rat) : Int := if q < 0 then -((-q).floor) else q.floor

/-- The loop body of config.parsePorts: int and float items are appended
with an empty description and without any range check; map items read
the port (int or float) and description keys and are appended only when
the port is positive; items of any other shape are skipped. -/
def parsePortsItem (acc : List PortConfig) (item : YamlValue) : List PortConfig :=
  match item with
  | .yint n => acc ++ [{ port := n, description := "" }]
  | .yfloat q => acc ++ [{ port := floatToInt q, description := "" }]
  | .ymap fields =>
      let p : Int :=
        match alookup fields "port" with
        | some (.yint n) => n
        | some (.yfloat q) => floatToInt q
        | _ => 0
      let desc : String :=
        match alookup fields "description" with
        | some (.ystr s) => s
        | _ => ""
      if 0 < p then acc ++ [{ port := p, description := desc }] else acc
  | _ => acc

/-- config.parsePorts: nil and non-list values parse to no entries; a
list folds the per-item handling over its items. -/
def parsePorts (raw : Option YamlValue) : List PortConfig :=
  match raw with
  | none => []
  | some (.ylist items) => items.foldl parsePortsItem []
  | some _ => []

/-- The values one aggregator tick passes to DB.UpsertDailyStats for one
port: the five counter deltas and the two tracked peak rates. -/
structure Contribution where
  rx : Nat
  tx : Nat
  rxp : Nat
  txp : Nat
  conn : Nat
  peakRx : Nat
  peakTx : Nat
  deriving DecidableEq

/-- The effect of the daily ON CONFLICT DO UPDATE arm on the existing
row: counters are added, peak columns are MAX-combined. -/
def addContribution (r : DailyRow) (c : Contribution) : DailyRow :=
  { rxBytes := r.rxBytes + c.rx, txBytes := r.txBytes + c.tx,
    rxPackets := r.rxPackets + c.rxp, txPackets := r.txPackets + c.txp,
    connections := r.connections + c.conn,
    peakRxRate := max r.peakRxRate c.peakRx,
    peakTxRate := max r.peakTxRate c.peakTx }

/-- DB.UpsertDailyStats with its value arguments bundled as one
contribution. -/
def dailyUpsert (tbl : List ((Nat × String) × DailyRow)) (port : Nat)
    (date : String) (c : Contribution) : List ((Nat × String) × DailyRow) :=
  UpsertDailyStats tbl port date c.rx c.tx c.rxp c.txp c.conn c.peakRx c.peakTx

/-- A sequence of daily upserts against the same (port, date) key, in
tick order. -/
def applyDailyUpserts (tbl : List ((Nat × String) × DailyRow)) (port : Nat)
    (date : String) (cs : List Contribution) : List ((Nat × String) × DailyRow) :=
  cs.foldl (fun t c => dailyUpsert t port date c) tbl

theorem alookup_setAssoc_self {α β : Type} [DecidableEq α]
    (l : List (α × β)) (k : α) (v : β) : alookup (setAssoc l k v) k = some v := by
  induction l with
  | nil => simp [setAssoc, alookup]
  | cons kv rest ih =>
      by_cases h : kv.1 = k
      · simp [setAssoc, alookup, h]
      · simp [setAssoc, alookup, h, ih]

theorem alookup_append_of_none {α β : Type} [DecidableEq α]
    (l1 l2 : List (α × β)) (k : α) (h : alookup l1 k = none) :
    alookup (l1 ++ l2) k = alookup l2 k := by
  induction l1 with
  | nil => simp
  | cons kv rest ih =>
      by_cases hk : kv.1 = k
      · simp [alookup, hk] at h
      · simp [alookup, hk] at h ⊢
        exact ih h

/-- Claim C1: the claim fails on the code. On a cumulative-counter
regression (previous rx 1000, current rx 500, one second elapsed, a
tick after the first) the collector publishes the wrapped uint64
difference as the rx rate, namely 2 ^ 64 - 500 bytes per second, and in
particular not 0. -/
theorem C1_regression_rate_wraps :
    (collectPort 80 1 (some ⟨1000, 0, 0, 0, 0⟩) ⟨500, 0, 0, 0, 0⟩ 0).rxRate
        = ((2 ^ 64 - 500 : Nat) : Rat)
    ∧ (collectPort 80 1 (some ⟨1000, 0, 0, 0, 0⟩) ⟨500, 0, 0, 0, 0⟩ 0).rxRate ≠ 0
    ∧ (500 : Nat) < 1000 := by
  have hu : u64sub 500 1000 = 2 ^ 64 - 500 := by decide
  refine ⟨?_, ?_, by norm_num⟩
  · simp only [collectPort]
    norm_num [hu]
  · simp only [collectPort]
    norm_num [hu]

/-- Claim C2: the per-port delta of an aggregator persist tick. With a
prior shadow, each field is current minus shadow when current is at
least the shadow and 0 otherwise; with no prior shadow, it is the whole
current counter; and every delta field is nonnegative (the deltas live
in Nat, as the uint64 counters do). -/
theorem C2_persist_deltas (last : Option persistedStats) (stats : PortStats) :
    (∀ l : persistedStats, last = some l →
      computeDeltas last stats =
        ⟨if l.rxBytes ≤ stats.rxBytes then stats.rxBytes - l.rxBytes else 0,
         if l.txBytes ≤ stats.txBytes then stats.txBytes - l.txBytes else 0,
         if l.rxPackets ≤ stats.rxPackets then stats.rxPackets - l.rxPackets else 0,
         if l.txPackets ≤ stats.txPackets then stats.txPackets - l.txPackets else 0,
         if l.connections ≤ stats.connections then stats.connections - l.connections else 0⟩)
    ∧ (last = none →
      computeDeltas last stats =
        ⟨stats.rxBytes, stats.txBytes, stats.rxPackets, stats.txPackets, stats.connections⟩)
    ∧ 0 ≤ (computeDeltas last stats).deltaRx
    ∧ 0 ≤ (computeDeltas last stats).deltaTx
    ∧ 0 ≤ (computeDeltas last stats).deltaRxPkt
    ∧ 0 ≤ (computeDeltas last stats).deltaTxPkt
    ∧ 0 ≤ (computeDeltas last stats).deltaConn := by
  refine ⟨?_, ?_, Nat.zero_le _, Nat.zero_le _, Nat.zero_le _, Nat.zero_le _, Nat.zero_le _⟩
  · rintro l rfl
    rfl
  · rintro rfl
    rfl

/-- Witness for C2 at a concrete shadow and snapshot: rx advanced by
50, tx regressed (delta 0), packets advanced by 7 and 3, connections by
3. -/
theorem C2_persist_deltas_witness :
    computeDeltas (some ⟨100, 300, 10, 2, 1⟩) ⟨80, 150, 250, 17, 5, 4, 0, 0⟩
      = ⟨50, 0, 7, 3, 3⟩ := by
  have h := (C2_persist_deltas (some ⟨100, 300, 10, 2, 1⟩)
    ⟨80, 150, 250, 17, 5, 4, 0, 0⟩).1 ⟨100, 300, 10, 2, 1⟩ rfl
  exact h.trans (by decide)

/-- Claim C3: the claim fails on the code. The handleRequest method
switch has no flush_stats case, so a request whose method is exactly
flush_stats reaches the default branch and is answered with the -32601
method-not-found error; no handler runs, and in particular
Aggregator.Flush is never invoked. -/
theorem C3_flushStats_method_not_found :
    handleRequest MethodFlushStats = .errorReply (-32601)
    ∧ MethodFlushStats = "flush_stats"
    ∧ ErrCodeMethodNotFound = -32601 := by
  refine ⟨by decide, rfl, by decide⟩

/-- Claim C8: for every server state, remove_port replies success, also
when the port is not currently monitored, and afterwards the list_ports
reply does not contain the port; the kernel target set does not contain
it either. -/
theorem C8_removePort_success_and_absent (s : ServerState) (p : Nat) :
    (handleRemovePort s p).2 = .success
    ∧ p ∉ handleListPorts (handleRemovePort s p).1
    ∧ p ∉ (handleRemovePort s p).1.targets := by
  refine ⟨rfl, ?_, ?_⟩
  · simp [handleRemovePort, handleListPorts]
  · simp [handleRemovePort, LoaderRemovePort]

/-- Claim C9: add_port appends to the monitored-ports list without a
membership check: two successful add_port requests for the same port
leave list_ports with two more copies of the port than before — so a
port already present is listed twice — while the kernel target-set
insert is idempotent (the second insert leaves the target set
unchanged). -/
theorem C9_addPort_appends_duplicates (s : ServerState) (p : Nat) :
    (handleListPorts (handleAddPort (handleAddPort s p).1 p).1).count p
        = (handleListPorts s).count p + 2
    ∧ (handleAddPort (handleAddPort s p).1 p).1.targets = (handleAddPort s p).1.targets
    ∧ (handleAddPort (handleAddPort s p).1 p).2 = .success := by
  refine ⟨?_, ?_, rfl⟩
  · simp [handleAddPort, handleListPorts, List.count_append]
  · by_cases h : p ∈ s.targets
    · simp [handleAddPort, LoaderAddPort, h]
    · simp [handleAddPort, LoaderAddPort, h]

/-- Claim C10: when both byte deltas of a port are zero on a persist
tick, the aggregator skips the port before any store write: the hourly
and daily tables, the shadow, and the peak tracker all come back
unchanged, so packet or connection deltas accumulated since the last
persisted tick stay measured against the old shadow and are carried
forward to a later tick. -/
theorem C10_zero_byte_delta_skips (st : AggState) (db : DBState) (today : String)
    (hourTs port : Nat) (stats : PortStats)
    (hrx : (computeDeltas (alookup st.lastPersist port) stats).deltaRx = 0)
    (htx : (computeDeltas (alookup st.lastPersist port) stats).deltaTx = 0) :
    persistPort st db today hourTs port stats = (st, db) := by
  unfold persistPort
  simp [hrx, htx]

/-- Witness for C10: a port whose byte counters did not move but whose
rx packet counter advanced by 5 is skipped whole — no table is touched
and the shadow keeps the old packet count for a later tick. -/
theorem C10_zero_byte_delta_skips_witness :
    persistPort ⟨[(80, ⟨100, 200, 3, 4, 1⟩)], []⟩ ⟨[], []⟩ "2025-01-15" 1736899200 80
        ⟨80, 100, 200, 8, 9, 1, 0, 0⟩
      = (⟨[(80, ⟨100, 200, 3, 4, 1⟩)], []⟩, ⟨[], []⟩)
    ∧ (computeDeltas (alookup [(80, ⟨100, 200, 3, 4, 1⟩)] 80)
        ⟨80, 100, 200, 8, 9, 1, 0, 0⟩).deltaRxPkt = 5 :=
  ⟨C10_zero_byte_delta_skips _ _ _ _ _ _ (by decide) (by decide), by decide⟩

/-- Claim C4, counterexample to the claim as stated: for port 80 the
sampled PortTotals row has cumulative connections counter 5, and two
ConnTotals entries match port 80, so the published connections field is
the active count 2 — the active count replaces the cumulative counter
instead of being carried in addition to it. -/
theorem C4_connections_replaced_counterexample :
    (collectPort 80 1 none ⟨100, 200, 10, 20, 5⟩
        ((alookup (CountActiveConnections [80]
          [⟨1, 2, 80, 9999⟩, ⟨3, 4, 555, 80⟩]) 80).getD 0)).connections = 2
    ∧ (2 : Nat) ≠ 5 :=
  ⟨by decide, by decide⟩

/-- Claim C4 (amended): every entry of the published snapshot copies the
sampled rx and tx byte and packet counters of its PortTotals row, while
its connections field carries the active-connection count in place of
the cumulative connections counter, which is not published. -/
theorem C4_snapshot_fields (lastStats : List (Nat × PmPortStats)) (elapsed : Rat)
    (stats : List (Nat × PmPortStats)) (activeConns : List (Nat × Nat))
    (e : Nat × PortStats) (he : e ∈ collect lastStats elapsed stats activeConns) :
    ∃ row : PmPortStats, (e.1, row) ∈ stats
      ∧ e.2.rxBytes = row.rxBytes ∧ e.2.txBytes = row.txBytes
      ∧ e.2.rxPackets = row.rxPackets ∧ e.2.txPackets = row.txPackets
      ∧ e.2.connections = (alookup activeConns e.1).getD 0 := by
  unfold collect at he
  rcases List.mem_map.mp he with ⟨pc, hpc, rfl⟩
  exact ⟨pc.2, by simpa using hpc, rfl, rfl, rfl, rfl, rfl⟩

/-- Witness for the amended C4 at a concrete one-port sample. -/
theorem C4_snapshot_fields_witness :
    ∃ row : PmPortStats,
      ((80 : Nat), row) ∈ [((80 : Nat), (⟨100, 200, 10, 20, 5⟩ : PmPortStats))]
      ∧ (collectPort 80 1 none ⟨100, 200, 10, 20, 5⟩ 2).rxBytes = row.rxBytes
      ∧ (collectPort 80 1 none ⟨100, 200, 10, 20, 5⟩ 2).txBytes = row.txBytes
      ∧ (collectPort 80 1 none ⟨100, 200, 10, 20, 5⟩ 2).rxPackets = row.rxPackets
      ∧ (collectPort 80 1 none ⟨100, 200, 10, 20, 5⟩ 2).txPackets = row.txPackets
      ∧ (collectPort 80 1 none ⟨100, 200, 10, 20, 5⟩ 2).connections
          = (alookup [((80 : Nat), (2 : Nat))] 80).getD 0 :=
  C4_snapshot_fields [] 1 [(80, ⟨100, 200, 10, 20, 5⟩)] [(80, 2)]
    (80, collectPort 80 1 none ⟨100, 200, 10, 20, 5⟩ 2) (by decide)

/-- Claim C5: the billing-cycle computation clamps a cycle day outside
1..28 to 1; with an in-range day it anchors the range at (current
month, day) up to (current month plus one, day minus one, 23:59:59)
when the reference day has reached the cycle day, and one month earlier
otherwise — with Go time.Date normalization resolving month and day
overflow, as the concrete instances across the December and January
year boundaries check. -/
theorem C5_billing_cycle_dates :
    (∀ (d : Int) (ref : DateTime), (d < 1 ∨ d > 28) →
      GetBillingCycleDates d ref = GetBillingCycleDates 1 ref)
    ∧ (∀ (d : Int) (ref : DateTime), 1 ≤ d → d ≤ 28 →
      (d ≤ ref.day → GetBillingCycleDates d ref =
        (goDate ref.year ref.month d 0 0 0,
         goDate ref.year (ref.month + 1) (d - 1) 23 59 59))
      ∧ (ref.day < d → GetBillingCycleDates d ref =
        (goDate ref.year (ref.month - 1) d 0 0 0,
         goDate ref.year ref.month (d - 1) 23 59 59)))
    ∧ GetBillingCycleDates 15 ⟨2025, 1, 20, 12, 0, 0⟩
        = (⟨2025, 1, 15, 0, 0, 0⟩, ⟨2025, 2, 14, 23, 59, 59⟩)
    ∧ GetBillingCycleDates 15 ⟨2025, 1, 10, 12, 0, 0⟩
        = (⟨2024, 12, 15, 0, 0, 0⟩, ⟨2025, 1, 14, 23, 59, 59⟩)
    ∧ GetBillingCycleDates 1 ⟨2025, 1, 15, 12, 0, 0⟩
        = (⟨2025, 1, 1, 0, 0, 0⟩, ⟨2025, 1, 31, 23, 59, 59⟩)
    ∧ GetBillingCycleDates 30 ⟨2025, 1, 15, 12, 0, 0⟩
        = (⟨2025, 1, 1, 0, 0, 0⟩, ⟨2025, 1, 31, 23, 59, 59⟩)
    ∧ GetBillingCycleDates 15 ⟨2025, 12, 20, 12, 0, 0⟩
        = (⟨2025, 12, 15, 0, 0, 0⟩, ⟨2026, 1, 14, 23, 59, 59⟩) := by
  refine ⟨?_, ?_, by decide, by decide, by decide, by decide, by decide⟩
  · intro d ref h
    simp only [GetBillingCycleDates]
    rw [if_pos h, if_neg (by norm_num : ¬((1 : Int) < 1 ∨ (1 : Int) > 28))]
  · intro d ref h1 h2
    have hc : ¬(d < 1 ∨ d > 28) := by omega
    constructor
    · intro hd
      simp only [GetBillingCycleDates, billingCycleFrom]
      rw [if_neg hc, if_pos hd]
    · intro hd
      simp only [GetBillingCycleDates, billingCycleFrom]
      rw [if_neg hc, if_neg (not_le.mpr hd)]

/-- Witness for C5: the clamp applied at cycle day 30 and the in-range
branch applied at cycle day 15, both at concrete January reference
times. -/
theorem C5_billing_cycle_dates_witness :
    GetBillingCycleDates 30 ⟨2025, 3, 10, 0, 0, 0⟩
        = GetBillingCycleDates 1 ⟨2025, 3, 10, 0, 0, 0⟩
    ∧ GetBillingCycleDates 15 ⟨2025, 1, 20, 12, 0, 0⟩
        = (goDate 2025 1 15 0 0 0, goDate 2025 (1 + 1) (15 - 1) 23 59 59) :=
  ⟨C5_billing_cycle_dates.1 30 ⟨2025, 3, 10, 0, 0, 0⟩ (by norm_num),
   (C5_billing_cycle_dates.2.1 15 ⟨2025, 1, 20, 12, 0, 0⟩ (by norm_num)
     (by norm_num)).1 (by norm_num)⟩

theorem dailyUpsert_alookup (tbl : List ((Nat × String) × DailyRow)) (port : Nat)
    (date : String) (c : Contribution) :
    alookup (dailyUpsert tbl port date c) (port, date)
      = some (match alookup tbl (port, date) with
              | some r => addContribution r c
              | none => ⟨c.rx, c.tx, c.rxp, c.txp, c.conn, c.peakRx, c.peakTx⟩) := by
  cases h : alookup tbl (port, date) with
  | some r =>
      simp only [dailyUpsert, UpsertDailyStats, h]
      exact alookup_setAssoc_self tbl (port, date) _
  | none =>
      simp only [dailyUpsert, UpsertDailyStats, h]
      rw [alookup_append_of_none _ _ _ h]
      simp [alookup]

theorem applyDailyUpserts_alookup_some (port : Nat) (date : String) :
    ∀ (cs : List Contribution) (tbl : List ((Nat × String) × DailyRow)) (r : DailyRow),
      alookup tbl (port, date) = some r →
      alookup (applyDailyUpserts tbl port date cs) (port, date)
        = some (cs.foldl addContribution r) := by
  intro cs
  induction cs with
  | nil =>
      intro tbl r h
      simpa [applyDailyUpserts] using h
  | cons c cs ih =>
      intro tbl r h
      have h1 := dailyUpsert_alookup tbl port date c
      simp only [h] at h1
      have h2 := ih (dailyUpsert tbl port date c) (addContribution r c) h1
      simpa [applyDailyUpserts, List.foldl_cons] using h2

theorem foldl_addContribution (cs : List Contribution) :
    ∀ r : DailyRow, cs.foldl addContribution r =
      ⟨r.rxBytes + (cs.map Contribution.rx).sum,
       r.txBytes + (cs.map Contribution.tx).sum,
       r.rxPackets + (cs.map Contribution.rxp).sum,
       r.txPackets + (cs.map Contribution.txp).sum,
       r.connections + (cs.map Contribution.conn).sum,
       (cs.map Contribution.peakRx).foldl max r.peakRxRate,
       (cs.map Contribution.peakTx).foldl max r.peakTxRate⟩ := by
  induction cs with
  | nil =>
      intro r
      simp
  | cons c cs ih =>
      intro r
      rw [List.foldl_cons, ih]
      simp [addContribution, Nat.add_assoc]

/-- Claim C6: a sequence of daily upserts against one (port, date) key,
starting with no row for that key, leaves a row whose five counters are
the sums of the contributed values and whose peak columns are the
maxima of the contributed peaks; and re-applying any single upsert a
second time leaves both peak columns unchanged (MAX-combining is
idempotent). -/
theorem C6_daily_upsert_sum_max :
    (∀ (tbl : List ((Nat × String) × DailyRow)) (port : Nat) (date : String)
        (c : Contribution) (cs : List Contribution),
      alookup tbl (port, date) = none →
      alookup (applyDailyUpserts tbl port date (c :: cs)) (port, date)
        = some ⟨((c :: cs).map Contribution.rx).sum,
                ((c :: cs).map Contribution.tx).sum,
                ((c :: cs).map Contribution.rxp).sum,
                ((c :: cs).map Contribution.txp).sum,
                ((c :: cs).map Contribution.conn).sum,
                ((c :: cs).map Contribution.peakRx).foldl max 0,
                ((c :: cs).map Contribution.peakTx).foldl max 0⟩)
    ∧ (∀ (tbl : List ((Nat × String) × DailyRow)) (port : Nat) (date : String)
        (c : Contribution), ∃ r1 r2 : DailyRow,
      alookup (dailyUpsert tbl port date c) (port, date) = some r1
      ∧ alookup (dailyUpsert (dailyUpsert tbl port date c) port date c) (port, date) = some r2
      ∧ r2.peakRxRate = r1.peakRxRate ∧ r2.peakTxRate = r1.peakTxRate) := by
  constructor
  · intro tbl port date c cs h
    have h1 := dailyUpsert_alookup tbl port date c
    simp only [h] at h1
    have h2 := applyDailyUpserts_alookup_some port date cs (dailyUpsert tbl port date c) _ h1
    have h3 : applyDailyUpserts tbl port date (c :: cs)
        = applyDailyUpserts (dailyUpsert tbl port date c) port date cs := rfl
    rw [h3, h2, foldl_addContribution]
    simp [List.map_cons, List.sum_cons, Nat.zero_max]
  · intro tbl port date c
    have h1 := dailyUpsert_alookup tbl port date c
    have h2 := dailyUpsert_alookup (dailyUpsert tbl port date c) port date c
    cases h : alookup tbl (port, date) with
    | none =>
        simp only [h] at h1
        simp only [h1] at h2
        exact ⟨_, _, h1, h2, by simp [addContribution], by simp [addContribution]⟩
    | some r =>
        simp only [h] at h1
        simp only [h1] at h2
        exact ⟨_, _, h1, h2, by simp [addContribution, max_assoc],
          by simp [addContribution, max_assoc]⟩

/-- Witness for C6: two concrete contributions accumulate to summed
counters and MAX-combined peaks. -/
theorem C6_daily_upsert_sum_max_witness :
    alookup (applyDailyUpserts [] 80 "2025-01-15"
        [⟨10, 20, 1, 2, 1, 100, 50⟩, ⟨5, 0, 1, 0, 0, 70, 90⟩]) (80, "2025-01-15")
      = some ⟨15, 20, 2, 2, 1, 100, 90⟩ := by
  have h := C6_daily_upsert_sum_max.1 [] 80 "2025-01-15" ⟨10, 20, 1, 2, 1, 100, 50⟩
    [⟨5, 0, 1, 0, 0, 70, 90⟩] rfl
  exact h.trans (by decide)

theorem parsePortsItem_yint (acc : List PortConfig) (n : Int) :
    parsePortsItem acc (.yint n) = acc ++ [{ port := n, description := "" }] := rfl

theorem foldl_parsePortsItem_yint (ns : List Int) :
    ∀ acc : List PortConfig,
      (ns.map YamlValue.yint).foldl parsePortsItem acc
        = acc ++ ns.map (fun n => { port := n, description := "" }) := by
  induction ns with
  | nil =>
      intro acc
      simp
  | cons n ns ih =>
      intro acc
      simp only [List.map_cons, List.foldl_cons, parsePortsItem_yint]
      rw [ih]
      simp

theorem parsePortsItem_ymap_pos (acc : List PortConfig)
    (fields : List (String × YamlValue)) (h : ∀ pc ∈ acc, 0 < pc.port) :
    ∀ pc ∈ parsePortsItem acc (.ymap fields), 0 < pc.port := by
  intro pc hm
  simp only [parsePortsItem] at hm
  split at hm
  · rcases List.mem_append.mp hm with hA | hB
    · exact h pc hA
    · simp only [List.mem_singleton] at hB
      subst hB
      assumption
  · exact h pc hm

theorem foldl_parsePortsItem_ymap_pos :
    ∀ (fs : List (List (String × YamlValue))) (acc : List PortConfig),
      (∀ pc ∈ acc, 0 < pc.port) →
      ∀ pc ∈ (fs.map YamlValue.ymap).foldl parsePortsItem acc, 0 < pc.port := by
  intro fs
  induction fs with
  | nil =>
      intro acc h
      simpa using h
  | cons f fs ih =>
      intro acc h
      simp only [List.map_cons, List.foldl_cons]
      exact ih _ (parsePortsItem_ymap_pos acc f h)

/-- Claim C7, counterexample to the claim as stated: the int-only form
keeps an entry whose port is -5, so parsing does not reject every entry
with a nonpositive port. -/
theorem C7_nonpositive_port_kept :
    parsePorts (some (.ylist [.yint (-5)])) = [{ port := -5, description := "" }]
    ∧ (-5 : Int) ≤ 0 :=
  ⟨rfl, by norm_num⟩

/-- Claim C7 (amended): the object form rejects every entry whose port
is not positive — every entry parsed from a list of maps has a positive
port — while the int-only form yields entries with empty descriptions
but keeps every integer unfiltered, including nonpositive ones. -/
theorem C7_parsePorts_amended :
    (∀ fs : List (List (String × YamlValue)),
      ∀ pc ∈ parsePorts (some (.ylist (fs.map YamlValue.ymap))), 0 < pc.port)
    ∧ (∀ ns : List Int,
      parsePorts (some (.ylist (ns.map YamlValue.yint)))
        = ns.map fun n => { port := n, description := "" }) := by
  constructor
  · intro fs
    have h0 : ∀ pc ∈ ([] : List PortConfig), 0 < pc.port := by
      intro pc h
      simp at h
    have := foldl_parsePortsItem_ymap_pos fs [] h0
    simpa [parsePorts] using this
  · intro ns
    have := foldl_parsePortsItem_yint ns []
    simpa [parsePorts] using this

/-- Witness for the amended C7: an object entry with port 8080 parses to
a positive port. -/
theorem C7_parsePorts_amended_witness :
    (0 : Int) < ({ port := 8080, description := "api" } : PortConfig).port :=
  C7_parsePorts_amended.1
    [[("port", YamlValue.yint 8080), ("description", YamlValue.ystr "api")]]
    { port := 8080, description := "api" } (by decide)

end Portmon
